import Mathlib

/-!
Shallow embedding of `src/Tools/NTupleReader.h` (class `NTupleReader`).

Modelling conventions:
* C++ `std::type_index` values and demangled type-name strings are both
  modelled by canonical strings such as `"int"` or `"vector<double>"`;
  `abi::__cxa_demangle` is the identity on these canonical tags.
* `std::unordered_map<std::string, _>` is modelled as an association list
  keyed on strings (`lookupA` / `insertA`), since only per-key lookup and
  insertion are observable.
* Raw storage cells hold an abstract payload `Val`; a typed accessor that
  returns `*static_cast<T*>(ptr)` is modelled as returning a `Ref` naming
  the map and key of the cell it aliases (the raw-memory reinterpretation
  itself has no further arithmetic content).
* Exceptions (`THROW_SATEXCEPTION`) are modelled by explicit error values.
-/

/-- Type-erased payload stored behind a `Handle` pointer: either the
default-constructed object made by `new T()` (tagged with the type), a
concrete loaded/written payload, or indeterminate garbage. -/
inductive Val where
  | defaultVal (ty : String)
  | payload (n : Nat)
  | junkVal
deriving DecidableEq

/-- Model of `demangle<T>()` (NTupleReader.h:514-522) turns `typeid(T).name()` into a
human-readable string; on our canonical string tags it is the identity. -/
def demangle (t : String) : String := t

/-- Association-list lookup, modelling `std::unordered_map::find`. -/
def lookupA {α : Type} : List (String × α) → String → Option α
  | [], _ => none
  | p :: rest, k => if p.1 = k then some p.2 else lookupA rest k

/-- Association-list insert-or-assign, modelling `map[k] = v` / `map.insert`. -/
def insertA {α : Type} : List (String × α) → String → α → List (String × α)
  | [], k, v => [(k, v)]
  | p :: rest, k, v => if p.1 = k then (k, v) :: rest else p :: insertA rest k v

/-- Model of `NTupleReader::Handle` (NTupleReader.h:96-117): a type-erased ownership
cell.  `deleterSet` models whether the `deleter` member pointer is non-null;
`isVecDel` records which deleter class (`deleter<T>` vs `vec_deleter<T>`)
was bound; `type` is the stored `std::type_index`; `val` is the pointee. -/
structure Handle where
  deleterSet : Bool
  isVecDel : Bool
  type : String
  val : Val
deriving DecidableEq

/-- Model of `Handle::destroy` (NTupleReader.h:109-116): if the deleter pointer is
non-null, invoke `deleter->destroy(ptr)` and `delete deleter`.  The member
pointer `deleter` is never assigned, so the handle's fields are unchanged
(after the first call the pointer dangles rather than being cleared).  The
returned `Nat` counts how many times the destroy callback path is entered
by this call. -/
def Handle.destroy (h : Handle) : Handle × Nat :=
  if h.deleterSet then (h, 1) else (h, 0)

/-- Model of `createHandle<T>` (NTupleReader.h:120-124): handle owning `new T()` with
a scalar `deleter<T>` and type witness `typeid(T)`. -/
def createHandle (t : String) : Handle :=
  { deleterSet := true, isVecDel := false, type := t, val := Val.defaultVal t }

/-- Model of `createVecHandle<T>` (NTupleReader.h:127-131): handle owning a cell that
holds a pointer-to-collection, with a `vec_deleter` and type witness
`typeid(std::remove_pointer<T>::type)` (the collection type `t`). -/
def createVecHandle (t : String) : Handle :=
  { deleterSet := true, isVecDel := true, type := t, val := Val.defaultVal (t ++ "*") }

/-- One branch of the external `TTree` source: declared storage category
(scalar vs. vector), element type (for vectors, the element type of the
stored `vector<T>`), and the per-row data it delivers. -/
structure TBranch where
  isVec : Bool
  elemType : String
  rows : List Val
deriving DecidableEq

/-- Model of `TBranch::GetEvent(i)` delivers row `i`; out-of-range or negative row
indices deliver indeterminate data. -/
def TBranch.rowAt (b : TBranch) (i : Int) : Val :=
  if 0 ≤ i then b.rows.getD i.toNat Val.junkVal else Val.junkVal

/-- The `std::type_index` string under which a branch's storage is attached:
`vector<elemType>` for vector branches, `elemType` for scalar branches. -/
def branchStoredType (b : TBranch) : String :=
  if b.isVec then "vector<" ++ b.elemType ++ ">" else b.elemType

/-- The observable state of an `NTupleReader` object (NTupleReader.h:333-346):
the two column maps, the type-name map, the registered pipeline
(`functionVec_`, entries identified by opaque ids), the event cursor, the
behaviour flags, the name prefix and the external tree. -/
structure NTR where
  branchMap : List (String × Handle)
  branchVecMap : List (String × Handle)
  typeMap : List (String × String)
  functionVec : List Nat
  nevt : Int
  evtProcessed : Int
  reThrow : Bool
  convertHackActive : Bool
  pfx : String
  treeBranches : List (String × TBranch)
  activeBranches : List String
deriving DecidableEq

/-- Model of `isFirstEvent` (NTupleReader.h:179-182): `evtProcessed_ <= 1`. -/
def NTR.isFirstEvent (s : NTR) : Bool :=
  decide (s.evtProcessed ≤ 1)

/-- Model of `checkBranch` (NTupleReader.h:186-189): membership in `typeMap_`. -/
def checkBranch (s : NTR) (name : String) : Bool :=
  (lookupA s.typeMap name).isSome

/-- Which of the two column maps a call works on (`v_tuple` argument of
`getTupleObj`): `branchMap_` for scalars, `branchVecMap_` for vectors. -/
inductive MapSel where
  | scalarM
  | vecM
deriving DecidableEq

/-- Select the column map named by `sel`. -/
def NTR.vtuple (s : NTR) : MapSel → List (String × Handle)
  | MapSel.scalarM => s.branchMap
  | MapSel.vecM => s.branchVecMap

/-- A returned reference: `*static_cast<T*>(ptr)` aliases the storage cell
of key `key` in the column map `m`. -/
inductive Ref where
  | cell (m : MapSel) (key : String)
deriving DecidableEq

/-- The `SATException`s this header can raise. -/
inductive SATErr where
  | notFound (var : String) (reqType : String)
  | notFoundWithType (var : String) (reqType : String) (foundType : String)
  | redefine (name : String)
  | registerLate
  | getTypeMiss (name : String)
deriving DecidableEq

/-- Outcome of `getTupleObj`: a returned reference, a raised
`SATException`, or C++ undefined behaviour (end-iterator dereference). -/
inductive GetOutcome where
  | ok (r : Ref)
  | err (e : SATErr)
  | ub (what : String)
deriving DecidableEq

/-- Result a caller of `getVar`/`getVec`/`getMap` observes: a valid
reference, an exception propagating out, the dereference of
`static_cast<T*>(nullptr)`, or undefined behaviour. -/
inductive VarResult where
  | valRef (r : Ref)
  | thrownExc (e : SATErr)
  | nullDeref
  | ubRes (what : String)
deriving DecidableEq

/-- Result of a registration call: the new state, the `SATException`
raised inside the body (if any; it is always printed), and whether that
exception propagates out to the caller. -/
structure RegResult where
  state : NTR
  raised : Option SATErr
  rethrown : Bool
deriving DecidableEq

/-- Prefix/alias resolution at the top of `getTupleObj`
(NTupleReader.h:402-408): try `prefix_ + var`, fall back to `var`. -/
def resolveName (s : NTR) (var : String) : String :=
  if checkBranch s (s.pfx ++ var) then s.pfx ++ var else var

/-- The suffix character `typen` selected by the four consecutive `if`
statements at NTupleReader.h:423-430 (their conditions are pairwise
incompatible, so the if-chain is equivalent); `typen` is declared
uninitialized, so when no pair matches its value is the indeterminate
`junk` character. -/
def convTypen (reqT natT : String) (junk : Char) : Char :=
  if reqT = "vector<float>" ∧ natT = "vector<double>" then 'f'
  else if reqT = "vector<double>" ∧ natT = "vector<float>" then 'd'
  else if reqT = "vector<int>" ∧ natT = "vector<unsigned int>" then 'i'
  else if reqT = "vector<int>" ∧ natT = "vector<float>" then 'a'
  else junk

/-- The scalar shadow-name probe (NTupleReader.h:457-467): look up
`varName + "___d"`, then `"___f"`, then `"___i"` in `branchMap_`, returning
the first hit. -/
def scalarProbe (s : NTR) (vn : String) : Option Ref :=
  match lookupA s.branchMap (vn ++ "___d") with
  | some _ => some (Ref.cell MapSel.scalarM (vn ++ "___d"))
  | none =>
    match lookupA s.branchMap (vn ++ "___f") with
    | some _ => some (Ref.cell MapSel.scalarM (vn ++ "___f"))
    | none =>
      match lookupA s.branchMap (vn ++ "___i") with
      | some _ => some (Ref.cell MapSel.scalarM (vn ++ "___i"))
      | none => none

/-- The exception built at NTupleReader.h:497-506: it looks up the
*original* (unprefixed) `var` in `typeMap_`, and names the actually-stored
type only when that lookup hits. -/
def finalErr (s : NTR) (var reqT : String) : SATErr :=
  match lookupA s.typeMap var with
  | some t => SATErr.notFoundWithType var (demangle reqT) t
  | none => SATErr.notFound var (demangle reqT)

/-- Modelled from the spec: the body of `getType` (declared at
NTupleReader.h:216, not under src/) returns the type-name map entry and,
per spec §4.2, "fails with NotFound if absent". -/
def getTypeE (s : NTR) (name : String) : Except SATErr String :=
  match lookupA s.typeMap name with
  | some t => Except.ok t
  | none => Except.error (SATErr.getTypeMiss name)

/-- Model of `registerBranch<T>` (NTupleReader.h:360-368): attach a scalar column of
type `t`, record its demangled type name, and mark the branch active in the
tree (`SetBranchStatus`); `SetBranchAddress` binds the cell, which the
model realises by `branchGetEvent` writing into the map entry. -/
def registerBranchT (s : NTR) (name t : String) : NTR :=
  { s with branchMap := insertA s.branchMap name (createHandle t),
           typeMap := insertA s.typeMap name (demangle t),
           activeBranches := name :: s.activeBranches }

/-- Model of `registerVecBranch<T>` (NTupleReader.h:370-378): attach a vector column
whose stored collection type is `vector<elemT>`. -/
def registerVecBranchT (s : NTR) (name elemT : String) : NTR :=
  { s with branchVecMap :=
             insertA s.branchVecMap name (createVecHandle ("vector<" ++ elemT ++ ">")),
           typeMap := insertA s.typeMap name (demangle ("vector<" ++ elemT ++ ">")),
           activeBranches := name :: s.activeBranches }

/-- Modelled from the spec: the body of `registerBranch(TBranch* const)`
(declared at NTupleReader.h:354, not under src/).  Per spec §4.3 it queries
the branch's declared storage category (scalar vs. vector) and concrete
element type and attaches storage via the header templates
`registerBranch<T>` / `registerVecBranch<T>`. -/
def registerBranchAuto (s : NTR) (name : String) (b : TBranch) : NTR :=
  if b.isVec then registerVecBranchT s name b.elemType
  else registerBranchT s name b.elemType

/-- Overwrite the stored payload of an attached cell (a write through the
bound branch address); absent keys are untouched. -/
def setValA (m : List (String × Handle)) (k : String) (v : Val) : List (String × Handle) :=
  match lookupA m k with
  | some h => insertA m k { h with val := v }
  | none => m

/-- Model of `branch->GetEvent(i)` after `SetBranchAddress` (NTupleReader.h:484):
deliver row `i` of branch `b` into the cell bound for `name`. -/
def branchGetEvent (s : NTR) (name : String) (b : TBranch) (i : Int) : NTR :=
  if b.isVec then { s with branchVecMap := setValA s.branchVecMap name (b.rowAt i) }
  else { s with branchMap := setValA s.branchMap name (b.rowAt i) }

/-- Model of `getTupleObj<T>` (NTupleReader.h:400-507).  `sel` names the map passed
as `v_tuple`; `reqT` is `typeid(std::remove_pointer<T>::type)`; `junk` is
the indeterminate initial value of the local `typen`. -/
def getTupleObj (s : NTR) (sel : MapSel) (var reqT : String) (forceLoad : Bool)
    (junk : Char) : GetOutcome × NTR :=
  let varName := resolveName s var
  match lookupA (s.vtuple sel) varName with
  | some h =>
    if h.type = reqT ∨ forceLoad = true then
      (GetOutcome.ok (Ref.cell sel varName), s)
    else if s.convertHackActive then
      -- conversion-hack path, NTupleReader.h:419-467
      let newname := varName ++ "___" ++ String.singleton (convTypen reqT h.type junk)
      if (lookupA s.branchVecMap newname).isSome then
        (GetOutcome.ok (Ref.cell MapSel.vecM newname), s)
      else
        match getTypeE s varName with
        | Except.error e => (GetOutcome.err e, s)
        | Except.ok _ =>
          match scalarProbe s varName with
          | some r => (GetOutcome.ok r, s)
          | none => (GetOutcome.err (finalErr s var reqT), s)
    else
      (GetOutcome.err (finalErr s var reqT), s)
  | none =>
    if (lookupA s.typeMap varName).isSome then
      -- lazy attachment path, NTupleReader.h:470-495
      match lookupA s.treeBranches varName with
      | some b =>
        let s2 := branchGetEvent (registerBranchAuto s varName b) varName b (s.nevt - 1)
        match lookupA (s2.vtuple sel) varName with
        | some h2 =>
          if h2.type = reqT then (GetOutcome.ok (Ref.cell sel varName), s2)
          else (GetOutcome.err (finalErr s2 var reqT), s2)
        | none => (GetOutcome.ub "end-iterator dereference after cross-kind attach", s2)
      | none => (GetOutcome.err (finalErr s var reqT), s)
    else
      (GetOutcome.err (finalErr s var reqT), s)

/-- The shared `try`/`catch` shape of `getVar`/`getVec`/`getMap`
(NTupleReader.h:281-327): on success return the reference; on a raised
`SATException`, print it only on the first event, rethrow it if `reThrow_`,
and otherwise return `*static_cast<T*>(nullptr)`.  The middle component
records whether the failure was printed. -/
def accessorWrap : GetOutcome × NTR → VarResult × Bool × NTR
  | (GetOutcome.ok r, s) => (VarResult.valRef r, false, s)
  | (GetOutcome.err e, s) =>
      ((if s.reThrow then VarResult.thrownExc e else VarResult.nullDeref),
       s.isFirstEvent, s)
  | (GetOutcome.ub w, s) => (VarResult.ubRes w, false, s)

/-- Model of `getVar<T>` (NTupleReader.h:281-295): `getTupleObj<T>` on `branchMap_`. -/
def getVar (s : NTR) (var reqT : String) (forceLoad : Bool) (junk : Char) :
    VarResult × Bool × NTR :=
  accessorWrap (getTupleObj s MapSel.scalarM var reqT forceLoad junk)

/-- The `std::type_index` tag of `std::vector<t>`. -/
def vecOf (t : String) : String := "vector<" ++ t ++ ">"

/-- Model of `getVec<T>` (NTupleReader.h:297-311): `getTupleObj<std::vector<T>*>` on
`branchVecMap_`, so the compared tag is `vector<elemT>`. -/
def getVec (s : NTR) (var elemT : String) (forceLoad : Bool) (junk : Char) :
    VarResult × Bool × NTR :=
  accessorWrap (getTupleObj s MapSel.vecM var (vecOf elemT) forceLoad junk)

/-- Model of `getMap<T,V>` (NTupleReader.h:313-327): `getTupleObj<std::map<T,V>*>` on
`branchVecMap_`, with no `forceLoad` parameter (always `false`). -/
def getMap (s : NTR) (var mapT : String) (junk : Char) : VarResult × Bool × NTR :=
  accessorWrap (getTupleObj s MapSel.vecM var mapT false junk)

/-- Model of `registerFunction<T>` (NTupleReader.h:206-210): append to
`functionVec_` on the first event, otherwise `THROW_SATEXCEPTION` (no
`try`/`catch` here, so the exception always propagates). -/
def registerFunction (s : NTR) (fid : Nat) : RegResult :=
  if s.isFirstEvent then
    { state := { s with functionVec := s.functionVec ++ [fid] },
      raised := none, rethrown := false }
  else
    { state := s, raised := some SATErr.registerLate, rethrown := true }

/-- Model of `registerDerivedVar<T>` (NTupleReader.h:221-244): if `name` is already
in `branchMap_`, write the value through the stored pointer (`setDerived`);
otherwise, if `name` is in `typeMap_`, throw the redefinition exception
(caught: printed, rethrown only if `reThrow_`); otherwise attach a fresh
scalar column of type `t`, record the type name, and write the value. -/
def registerDerivedVar (s : NTR) (name t : String) (v : Val) : RegResult :=
  match lookupA s.branchMap name with
  | some h =>
      { state := { s with branchMap := insertA s.branchMap name { h with val := v } },
        raised := none, rethrown := false }
  | none =>
    match lookupA s.typeMap name with
    | some _ =>
        { state := s, raised := some (SATErr.redefine name), rethrown := s.reThrow }
    | none =>
        let h := createHandle t
        { state := { s with
            branchMap := insertA (insertA s.branchMap name h) name { h with val := v },
            typeMap := insertA s.typeMap name (demangle t) },
          raised := none, rethrown := false }

/-- Model of `registerDerivedVec<T>` (NTupleReader.h:246-274): as
`registerDerivedVar` but on `branchVecMap_` with a `createVecHandle`; when
the column exists the previously-held collection is freed before the new
pointer is written. -/
def registerDerivedVec (s : NTR) (name t : String) (v : Val) : RegResult :=
  match lookupA s.branchVecMap name with
  | some h =>
      { state := { s with branchVecMap := insertA s.branchVecMap name { h with val := v } },
        raised := none, rethrown := false }
  | none =>
    match lookupA s.typeMap name with
    | some _ =>
        { state := s, raised := some (SATErr.redefine name), rethrown := s.reThrow }
    | none =>
        let h := createVecHandle t
        { state := { s with
            branchVecMap := insertA (insertA s.branchVecMap name h) name { h with val := v },
            typeMap := insertA s.typeMap name (demangle t) },
          raised := none, rethrown := false }

/-- Model of `FuncWrapperImpl<T>::operator()` (NTupleReader.h:141-155): invoke the
stored callable once (a callable is modelled as a state transformer plus an
arbitrary discarded return value) and return `true` unconditionally. -/
def funcWrapperImplCall {σ β : Type} (f : σ → σ × β) (tr : σ) : σ × Bool :=
  ((f tr).1, true)

/-- The invariant of spec §3: every key of either column map also has an
entry in the type-name map. -/
def typeMapCovers (s : NTR) : Prop :=
  (∀ p ∈ s.branchMap, (lookupA s.typeMap p.1).isSome = true) ∧
  (∀ p ∈ s.branchVecMap, (lookupA s.typeMap p.1).isSome = true)

/-- A baseline reader state used to build concrete test states. -/
def baseNTR : NTR :=
  { branchMap := [], branchVecMap := [], typeMap := [], functionVec := [],
    nevt := 1, evtProcessed := 1, reThrow := false, convertHackActive := false,
    pfx := "", treeBranches := [], activeBranches := [] }

/-! ## Association-list lemmas (shared helpers) -/

theorem lookupA_insertA_self {α : Type} (m : List (String × α)) (k : String) (v : α) :
    lookupA (insertA m k v) k = some v := by
  induction m with
  | nil => simp [insertA, lookupA]
  | cons p rest ih =>
    by_cases hp : p.1 = k
    · simp [insertA, hp, lookupA]
    · simp [insertA, hp, lookupA, ih]

theorem lookupA_insertA_ne {α : Type} (m : List (String × α)) (k k' : String) (v : α)
    (h : k' ≠ k) : lookupA (insertA m k v) k' = lookupA m k' := by
  have hk : ¬ k = k' := fun hh => h hh.symm
  induction m with
  | nil => simp [insertA, lookupA, hk]
  | cons p rest ih =>
    by_cases hp : p.1 = k
    · have hpk : ¬ p.1 = k' := by rw [hp]; exact hk
      simp [insertA, lookupA, hk, hp, hpk]
    · simp [insertA, hp, lookupA, ih]

theorem mem_insertA {α : Type} {m : List (String × α)} {k : String} {v : α} {q : String × α}
    (h : q ∈ insertA m k v) : q = (k, v) ∨ q ∈ m := by
  induction m with
  | nil => simpa [insertA] using h
  | cons p rest ih =>
    by_cases hp : p.1 = k
    · simp only [insertA, hp, if_pos] at h
      rcases List.mem_cons.mp h with h1 | h1
      · exact Or.inl h1
      · exact Or.inr (List.mem_cons_of_mem _ h1)
    · simp only [insertA, hp, if_neg, not_false_iff] at h
      rcases List.mem_cons.mp h with h1 | h1
      · exact Or.inr (h1 ▸ List.mem_cons_self _ _)
      · rcases ih h1 with h2 | h2
        · exact Or.inl h2
        · exact Or.inr (List.mem_cons_of_mem _ h2)

theorem lookupA_mem {α : Type} {m : List (String × α)} {k : String} {v : α}
    (h : lookupA m k = some v) : (k, v) ∈ m := by
  induction m with
  | nil => simp [lookupA] at h
  | cons p rest ih =>
    by_cases hp : p.1 = k
    · simp only [lookupA, hp, if_pos] at h
      have : p = (k, v) := by
        cases p
        simp_all
      exact this ▸ List.mem_cons_self _ _
    · simp only [lookupA, hp, if_neg, not_false_iff] at h
      exact List.mem_cons_of_mem _ (ih h)

theorem lookupA_insertA_isSome {α : Type} (m : List (String × α)) (k k' : String) (v : α)
    (h : (lookupA m k').isSome = true ∨ k' = k) :
    (lookupA (insertA m k v) k').isSome = true := by
  by_cases hk : k' = k
  · rw [hk, lookupA_insertA_self]; rfl
  · rw [lookupA_insertA_ne m k k' v hk]
    rcases h with h | h
    · exact h
    · exact absurd h hk

theorem covers_insert_covered {tm : List (String × String)}
    {bm : List (String × Handle)} {k : String} {h : Handle}
    (hc : ∀ p ∈ bm, (lookupA tm p.1).isSome = true)
    (hk : (lookupA tm k).isSome = true) :
    ∀ p ∈ insertA bm k h, (lookupA tm p.1).isSome = true := by
  intro p hp
  rcases mem_insertA hp with h1 | h1
  · rw [h1]; exact hk
  · exact hc p h1

theorem covers_typeMap_extend {tm : List (String × String)}
    {bm : List (String × Handle)} (k : String) (tn : String)
    (hc : ∀ p ∈ bm, (lookupA tm p.1).isSome = true) :
    ∀ p ∈ bm, (lookupA (insertA tm k tn) p.1).isSome = true := by
  intro p hp
  exact lookupA_insertA_isSome tm k p.1 tn (Or.inl (hc p hp))

/-! ## Claim C7 -/

/-- C7 counterexample: `Handle::destroy` does *not* clear the stored
callback.  On a fresh scalar handle, after a first `destroy()` the deleter
pointer is still set (the member is never assigned), and a second
`destroy()` enters the callback path again (one more invocation, not
zero), contrary to the claim that the first call clears the callback so
that a second call invokes nothing. -/
theorem C7_counterexample :
    (createHandle "int").destroy.1.deleterSet = true ∧
    ((createHandle "int").destroy.1.destroy).2 = 1 := by
  decide

/-- C7 amended: `destroy()` invokes the bound callback once per call when
one is set, but leaves the handle — in particular the stored callback
pointer — unchanged, so a second `destroy()` on the same handle enters the
(now freed) callback again; calling `destroy()` at most once is the
caller's responsibility. -/
theorem C7_destroy_once_per_call (h : Handle) :
    h.destroy.1 = h ∧
    h.destroy.2 = (if h.deleterSet then 1 else 0) ∧
    (h.deleterSet = true → (h.destroy.1.destroy).2 = 1) := by
  refine ⟨?_, ?_, ?_⟩
  · unfold Handle.destroy
    by_cases hd : h.deleterSet <;> simp [hd]
  · unfold Handle.destroy
    by_cases hd : h.deleterSet <;> simp [hd]
  · intro hd
    simp [Handle.destroy, hd]

/-- C7 amended, witnessed on a concrete handle. -/
theorem C7_destroy_once_per_call_witness :
    (createHandle "int").destroy.1 = createHandle "int" ∧
    ((createHandle "int").destroy.1.destroy).2 = 1 :=
  ⟨(C7_destroy_once_per_call (createHandle "int")).1,
   (C7_destroy_once_per_call (createHandle "int")).2.2 (by decide)⟩

/-! ## Claim C9 -/

/-- C9: `FuncWrapperImpl<T>::operator()` invokes the stored callable
exactly once (the resulting state is one application of `f`) and returns
`true` unconditionally; consequently the driver observes the same wrapper
output for any two callables with the same state effect, however their own
(discarded) return values differ. -/
theorem C9_wrapper_uniform_true {σ β : Type} (f : σ → σ × β) (tr : σ) :
    funcWrapperImplCall f tr = ((f tr).1, true) ∧
    (funcWrapperImplCall f tr).2 = true ∧
    (∀ g : σ → σ × β, (∀ x, (g x).1 = (f x).1) →
       funcWrapperImplCall g tr = funcWrapperImplCall f tr) := by
  refine ⟨rfl, rfl, ?_⟩
  intro g hg
  unfold funcWrapperImplCall
  rw [hg tr]

/-- C9, witnessed: a predicate returning `false` and one returning `true`
with the same state effect produce the identical wrapper output `(1, true)`. -/
theorem C9_wrapper_uniform_true_witness :
    funcWrapperImplCall (fun n : Nat => (n + 1, true)) 0 =
      funcWrapperImplCall (fun n : Nat => (n + 1, false)) 0 ∧
    funcWrapperImplCall (fun n : Nat => (n + 1, false)) 0 = (1, true) :=
  ⟨(C9_wrapper_uniform_true (fun n : Nat => (n + 1, false)) 0).2.2
      (fun n : Nat => (n + 1, true)) (fun _ => rfl),
   (C9_wrapper_uniform_true (fun n : Nat => (n + 1, false)) 0).1⟩

/-! ## Claim C2 -/

/-- A reader state past the first-event window (`evtProcessed_ = 3`). -/
def pastInitState : NTR := { baseNTR with evtProcessed := 3 }

/-- C2 counterexample: with `rowsProcessed = 3 > 1`,
`registerDerivedVar<int>("z", 7)` does *not* fail with UsagePastInit — no
exception is raised at all — and it inserts a new column, because the
first-event gate exists only in `registerFunction`
(NTupleReader.h:206-210), not in `registerDerivedVar`/`registerDerivedVec`
(NTupleReader.h:221-274). -/
theorem C2_counterexample :
    1 < pastInitState.evtProcessed ∧
    (registerDerivedVar pastInitState "z" "int" (Val.payload 7)).raised = none ∧
    (lookupA (registerDerivedVar pastInitState "z" "int" (Val.payload 7)).state.branchMap
        "z").isSome = true := by
  decide

/-- C2 amended: only `registerFunction` is gated by the first-event window —
called with `rowsProcessed > 1` it raises UsagePastInit, propagates it, and
leaves the whole state (in particular the pipeline list `functionVec_`)
unchanged; `registerDerivedVar` and `registerDerivedVec` are not gated by
the event counter, and never touch the pipeline list. -/
theorem C2_register_gate (s : NTR) (fid : Nat) (name t : String) (v : Val)
    (h : s.isFirstEvent = false) :
    registerFunction s fid =
      { state := s, raised := some SATErr.registerLate, rethrown := true } ∧
    (registerDerivedVar s name t v).state.functionVec = s.functionVec ∧
    (registerDerivedVec s name t v).state.functionVec = s.functionVec := by
  refine ⟨?_, ?_, ?_⟩
  · simp [registerFunction, h]
  · unfold registerDerivedVar
    cases hb : lookupA s.branchMap name with
    | some h0 => simp
    | none =>
      cases ht : lookupA s.typeMap name with
      | some t0 => simp
      | none => simp
  · unfold registerDerivedVec
    cases hb : lookupA s.branchVecMap name with
    | some h0 => simp
    | none =>
      cases ht : lookupA s.typeMap name with
      | some t0 => simp
      | none => simp

/-- C2 amended, witnessed at `rowsProcessed = 3`. -/
theorem C2_register_gate_witness :
    registerFunction pastInitState 0 =
      { state := pastInitState, raised := some SATErr.registerLate, rethrown := true } ∧
    (registerDerivedVar pastInitState "z" "int" (Val.payload 7)).state.functionVec =
      pastInitState.functionVec ∧
    (registerDerivedVec pastInitState "w" "vector<int>" (Val.payload 8)).state.functionVec =
      pastInitState.functionVec := by
  have := C2_register_gate pastInitState 0 "z" "int" (Val.payload 7) (by decide)
  have h2 := C2_register_gate pastInitState 0 "w" "vector<int>" (Val.payload 8) (by decide)
  exact ⟨this.1, this.2.1, h2.2.2⟩

/-! ## Claim C3 -/

/-- A reader whose schema column `x:int` already has attached storage. -/
def attachedState : NTR := { baseNTR with
  typeMap := [("x", "int")],
  branchMap := [("x", { deleterSet := true, isVecDel := false, type := "int",
                        val := Val.payload 1 })] }

/-- C3 counterexample: `"x"` exists as a known schema column *with attached
storage*; `registerDerivedVar<int>("x", 9)` raises no DuplicateName
exception and overwrites the column's storage (NTupleReader.h:225,237 —
when the name is found in `branchMap_` the duplicate check is skipped and
`setDerived` writes through the stored pointer). -/
theorem C3_counterexample :
    (lookupA attachedState.typeMap "x").isSome = true ∧
    (registerDerivedVar attachedState "x" "int" (Val.payload 9)).raised = none ∧
    lookupA (registerDerivedVar attachedState "x" "int" (Val.payload 9)).state.branchMap "x" =
      some { deleterSet := true, isVecDel := false, type := "int", val := Val.payload 9 } := by
  decide

/-- C3 amended: `registerDerivedVar`/`registerDerivedVec` fail with
DuplicateName (propagated iff `reThrow_`) and leave the state unchanged
only when the name is known to the schema but *not* attached in the
corresponding column map; when storage is already attached the call does
not fail and instead writes the value into that column's storage. -/
theorem C3_duplicate_only_unattached (s : NTR) (name t : String) (v : Val) :
    (lookupA s.branchMap name = none → (lookupA s.typeMap name).isSome = true →
      registerDerivedVar s name t v =
        { state := s, raised := some (SATErr.redefine name), rethrown := s.reThrow }) ∧
    (∀ h, lookupA s.branchMap name = some h →
      (registerDerivedVar s name t v).raised = none ∧
      lookupA (registerDerivedVar s name t v).state.branchMap name =
        some { h with val := v }) ∧
    (lookupA s.branchVecMap name = none → (lookupA s.typeMap name).isSome = true →
      registerDerivedVec s name t v =
        { state := s, raised := some (SATErr.redefine name), rethrown := s.reThrow }) ∧
    (∀ h, lookupA s.branchVecMap name = some h →
      (registerDerivedVec s name t v).raised = none ∧
      lookupA (registerDerivedVec s name t v).state.branchVecMap name =
        some { h with val := v }) := by
  refine ⟨?_, ?_, ?_, ?_⟩
  · intro hb ht
    cases htm : lookupA s.typeMap name with
    | none => rw [htm] at ht; simp at ht
    | some t0 => simp [registerDerivedVar, hb, htm]
  · intro h hb
    simp [registerDerivedVar, hb, lookupA_insertA_self]
  · intro hb ht
    cases htm : lookupA s.typeMap name with
    | none => rw [htm] at ht; simp at ht
    | some t0 => simp [registerDerivedVec, hb, htm]
  · intro h hb
    simp [registerDerivedVec, hb, lookupA_insertA_self]

/-- C3 amended, witnessed: `"k"` known to the schema but unattached is
rejected as a duplicate; attached `"x"` is silently overwritten. -/
theorem C3_duplicate_only_unattached_witness :
    registerDerivedVar { baseNTR with typeMap := [("k", "int")] } "k" "double"
        (Val.payload 5) =
      { state := { baseNTR with typeMap := [("k", "int")] },
        raised := some (SATErr.redefine "k"), rethrown := false } ∧
    (registerDerivedVar attachedState "x" "int" (Val.payload 9)).raised = none :=
  ⟨(C3_duplicate_only_unattached { baseNTR with typeMap := [("k", "int")] } "k"
      "double" (Val.payload 5)).1 (by decide) (by decide),
   ((C3_duplicate_only_unattached attachedState "x" "int" (Val.payload 9)).2.1
      { deleterSet := true, isVecDel := false, type := "int", val := Val.payload 1 }
      (by decide)).1⟩

/-! ## Claim C1 -/

/-- A reader with prefix `"p"` whose column `px:double` is attached. -/
def prefState : NTR := { baseNTR with
  pfx := "p",
  typeMap := [("px", "double")],
  branchMap := [("px", { deleterSet := true, isVecDel := false, type := "double",
                         val := Val.payload 3 })],
  reThrow := true }

/-- C1 counterexample: with prefix `"p"`, requesting `"x"` as `int` resolves
to the attached column `"px"` of recorded type `"double"`; conversion is
disabled, and the accessor does fail — but the raised diagnostic is the
plain NotFound form that does *not* name the actual stored type, because
the exception at NTupleReader.h:498 looks up the *unprefixed* name `"x"`
in `typeMap_`.  This refutes the claim's "diagnostic naming the actual
stored type". -/
theorem C1_counterexample :
    (lookupA prefState.branchMap (resolveName prefState "x")).map Handle.type =
      some "double" ∧
    prefState.convertHackActive = false ∧
    getTupleObj prefState MapSel.scalarM "x" "int" false 'q' =
      (GetOutcome.err (SATErr.notFound "x" "int"), prefState) := by
  decide

/-- C1 amended: with conversion disabled, every request of an attached
column under a type differing from its recorded tag raises the final
exception (TypeMismatch/NotFound), leaves the state unchanged, and the
typed accessors never return a valid reference; the diagnostic names the
actual stored type exactly when the requested (unprefixed) name itself has
an entry in the type-name map — in particular always when the prefix is
empty. -/
theorem C1_mismatch_fails (s : NTR) (sel : MapSel) (var reqT : String) (junk : Char)
    (hd : Handle)
    (hHack : s.convertHackActive = false)
    (hAtt : lookupA (s.vtuple sel) (resolveName s var) = some hd)
    (hMism : hd.type ≠ reqT) :
    getTupleObj s sel var reqT false junk = (GetOutcome.err (finalErr s var reqT), s) ∧
    (∀ r, (accessorWrap (getTupleObj s sel var reqT false junk)).1 ≠
        VarResult.valRef r) ∧
    (∀ t, lookupA s.typeMap var = some t →
        finalErr s var reqT = SATErr.notFoundWithType var (demangle reqT) t) ∧
    (lookupA s.typeMap var = none →
        finalErr s var reqT = SATErr.notFound var (demangle reqT)) := by
  have key : getTupleObj s sel var reqT false junk =
      (GetOutcome.err (finalErr s var reqT), s) := by
    simp only [getTupleObj, hAtt]
    simp [hMism, hHack]
  refine ⟨key, ?_, ?_, ?_⟩
  · intro r
    rw [key]
    cases hre : s.reThrow <;> simp [accessorWrap, hre]
  · intro t ht
    simp [finalErr, ht]
  · intro ht
    simp [finalErr, ht]

/-- A reader with no prefix whose column `x:double` is attached. -/
def mismatchState : NTR := { baseNTR with
  typeMap := [("x", "double")],
  branchMap := [("x", { deleterSet := true, isVecDel := false, type := "double",
                        val := Val.payload 2 })],
  reThrow := true }

/-- C1 amended, witnessed: with an empty prefix the failure diagnostic does
name the stored type `"double"`. -/
theorem C1_mismatch_fails_witness :
    getTupleObj mismatchState MapSel.scalarM "x" "int" false 'q' =
      (GetOutcome.err (finalErr mismatchState "x" "int"), mismatchState) ∧
    finalErr mismatchState "x" "int" = SATErr.notFoundWithType "x" "int" "double" := by
  have h := C1_mismatch_fails mismatchState MapSel.scalarM "x" "int" 'q'
      { deleterSet := true, isVecDel := false, type := "double", val := Val.payload 2 }
      (by decide) (by decide) (by decide)
  exact ⟨h.1, h.2.2.1 "double" (by decide)⟩

/-! ## Claim C8 -/

/-- C8: with the boolean flag (`forceLoad`) set, a lookup of any attached
name returns the stored cell reinterpreted as the requested type with no
comparison against the recorded type tag — the requested type `reqT` is
arbitrary and in particular may differ from the stored tag. -/
theorem C8_forceLoad_bypass (s : NTR) (var reqT elemT : String) (junk : Char) :
    (∀ hd, lookupA s.branchMap (resolveName s var) = some hd →
      getTupleObj s MapSel.scalarM var reqT true junk =
        (GetOutcome.ok (Ref.cell MapSel.scalarM (resolveName s var)), s) ∧
      getVar s var reqT true junk =
        (VarResult.valRef (Ref.cell MapSel.scalarM (resolveName s var)), false, s)) ∧
    (∀ hd, lookupA s.branchVecMap (resolveName s var) = some hd →
      getTupleObj s MapSel.vecM var (vecOf elemT) true junk =
        (GetOutcome.ok (Ref.cell MapSel.vecM (resolveName s var)), s) ∧
      getVec s var elemT true junk =
        (VarResult.valRef (Ref.cell MapSel.vecM (resolveName s var)), false, s)) := by
  constructor
  · intro hd hAtt
    have hAtt' : lookupA (s.vtuple MapSel.scalarM) (resolveName s var) = some hd := hAtt
    have key : getTupleObj s MapSel.scalarM var reqT true junk =
        (GetOutcome.ok (Ref.cell MapSel.scalarM (resolveName s var)), s) := by
      simp only [getTupleObj, hAtt']
      simp
    exact ⟨key, by simp [getVar, key, accessorWrap]⟩
  · intro hd hAtt
    have hAtt' : lookupA (s.vtuple MapSel.vecM) (resolveName s var) = some hd := hAtt
    have key : getTupleObj s MapSel.vecM var (vecOf elemT) true junk =
        (GetOutcome.ok (Ref.cell MapSel.vecM (resolveName s var)), s) := by
      simp only [getTupleObj, hAtt']
      simp
    exact ⟨key, by simp [getVec, key, accessorWrap]⟩

/-- C8, witnessed: `"x"` is attached with recorded type `"int"`, yet
`getVar<double>("x", true)` returns the stored cell. -/
theorem C8_forceLoad_bypass_witness :
    getVar attachedState "x" "double" true 'q' =
      (VarResult.valRef (Ref.cell MapSel.scalarM (resolveName attachedState "x")),
        false, attachedState) :=
  ((C8_forceLoad_bypass attachedState "x" "double" "double" 'q').1
    { deleterSet := true, isVecDel := false, type := "int", val := Val.payload 1 }
    (by decide)).2

/-! ## Claim C6 -/

/-- C6: whenever the underlying `getTupleObj` raises, each typed accessor
(`getVar`, `getVec`, `getMap`) rethrows the exception exactly when the
session-wide rethrow flag is set, otherwise swallows it and returns the
dereference of a null pointer; and in both cases the failure is printed
(middle component) precisely while `rowsProcessed ≤ 1`. -/
theorem C6_accessor_failure (s : NTR) (var reqT elemT mapT : String) (fl : Bool)
    (junk : Char) (e1 e2 e3 : SATErr) (s1 s2 s3 : NTR)
    (h1 : getTupleObj s MapSel.scalarM var reqT fl junk = (GetOutcome.err e1, s1))
    (h2 : getTupleObj s MapSel.vecM var (vecOf elemT) fl junk = (GetOutcome.err e2, s2))
    (h3 : getTupleObj s MapSel.vecM var mapT false junk = (GetOutcome.err e3, s3)) :
    getVar s var reqT fl junk =
      ((if s1.reThrow then VarResult.thrownExc e1 else VarResult.nullDeref),
        decide (s1.evtProcessed ≤ 1), s1) ∧
    getVec s var elemT fl junk =
      ((if s2.reThrow then VarResult.thrownExc e2 else VarResult.nullDeref),
        decide (s2.evtProcessed ≤ 1), s2) ∧
    getMap s var mapT junk =
      ((if s3.reThrow then VarResult.thrownExc e3 else VarResult.nullDeref),
        decide (s3.evtProcessed ≤ 1), s3) := by
  refine ⟨?_, ?_, ?_⟩ <;>
    simp [getVar, getVec, getMap, h1, h2, h3, accessorWrap, NTR.isFirstEvent]

/-- C6, witnessed on an empty reader (rethrow disabled, first event): all
three accessors swallow the NotFound failure, return the null dereference,
and print it. -/
theorem C6_accessor_failure_witness :
    getVar baseNTR "nope" "int" false 'q' = (VarResult.nullDeref, true, baseNTR) ∧
    getVec baseNTR "nope" "float" false 'q' = (VarResult.nullDeref, true, baseNTR) ∧
    getMap baseNTR "nope" "map<int,double>" 'q' = (VarResult.nullDeref, true, baseNTR) := by
  have h := C6_accessor_failure baseNTR "nope" "int" "float" "map<int,double>" false 'q'
      (SATErr.notFound "nope" "int") (SATErr.notFound "nope" "vector<float>")
      (SATErr.notFound "nope" "map<int,double>") baseNTR baseNTR baseNTR
      (by decide) (by decide) (by decide)
  exact ⟨h.1, h.2.1, h.2.2⟩

/-! ## Claim C4 -/

/-- C4: with the conversion hack enabled and an attached column requested
under a different type, the shadow suffix is selected by the
(native, requested) type pair — `vector<double>`→`vector<float>` gives
`f`, `vector<float>`→`vector<double>` gives `d`,
`vector<unsigned int>`→`vector<int>` gives `i`, and
`vector<float>`→`vector<int>` gives `a` — the name
`resolvedName ++ "___" ++ suffix` is looked up in the vector-column map
and returned on a hit; on a miss the scalar probe tries the suffixes `d`,
then `f`, then `i` in `branchMap_` in that fixed order and returns the
first hit. -/
theorem C4_conversion_shadow (s : NTR) (sel : MapSel) (var reqT : String) (junk : Char)
    (hd : Handle)
    (hHack : s.convertHackActive = true)
    (hAtt : lookupA (s.vtuple sel) (resolveName s var) = some hd)
    (hMism : hd.type ≠ reqT) :
    ((reqT = "vector<float>" ∧ hd.type = "vector<double>") →
        convTypen reqT hd.type junk = 'f') ∧
    ((reqT = "vector<double>" ∧ hd.type = "vector<float>") →
        convTypen reqT hd.type junk = 'd') ∧
    ((reqT = "vector<int>" ∧ hd.type = "vector<unsigned int>") →
        convTypen reqT hd.type junk = 'i') ∧
    ((reqT = "vector<int>" ∧ hd.type = "vector<float>") →
        convTypen reqT hd.type junk = 'a') ∧
    (∀ c, convTypen reqT hd.type junk = c →
      (lookupA s.branchVecMap
          (resolveName s var ++ "___" ++ String.singleton c)).isSome = true →
      getTupleObj s sel var reqT false junk =
        (GetOutcome.ok (Ref.cell MapSel.vecM
            (resolveName s var ++ "___" ++ String.singleton c)), s)) ∧
    (lookupA s.branchVecMap
        (resolveName s var ++ "___" ++
          String.singleton (convTypen reqT hd.type junk)) = none →
      (lookupA s.typeMap (resolveName s var)).isSome = true →
      getTupleObj s sel var reqT false junk =
        (match scalarProbe s (resolveName s var) with
         | some r => (GetOutcome.ok r, s)
         | none => (GetOutcome.err (finalErr s var reqT), s))) ∧
    (∀ h1, lookupA s.branchMap (resolveName s var ++ "___d") = some h1 →
        scalarProbe s (resolveName s var) =
          some (Ref.cell MapSel.scalarM (resolveName s var ++ "___d"))) ∧
    (lookupA s.branchMap (resolveName s var ++ "___d") = none →
      ∀ h2, lookupA s.branchMap (resolveName s var ++ "___f") = some h2 →
        scalarProbe s (resolveName s var) =
          some (Ref.cell MapSel.scalarM (resolveName s var ++ "___f"))) ∧
    (lookupA s.branchMap (resolveName s var ++ "___d") = none →
      lookupA s.branchMap (resolveName s var ++ "___f") = none →
      ∀ h3, lookupA s.branchMap (resolveName s var ++ "___i") = some h3 →
        scalarProbe s (resolveName s var) =
          some (Ref.cell MapSel.scalarM (resolveName s var ++ "___i"))) := by
  refine ⟨?_, ?_, ?_, ?_, ?_, ?_, ?_, ?_, ?_⟩
  · rintro ⟨hr, hn⟩
    rw [hr, hn]
    simp [convTypen]
  · rintro ⟨hr, hn⟩
    rw [hr, hn]
    simp [convTypen]
  · rintro ⟨hr, hn⟩
    rw [hr, hn]
    simp [convTypen]
  · rintro ⟨hr, hn⟩
    rw [hr, hn]
    simp [convTypen]
  · intro c hc hv
    simp only [getTupleObj, hAtt]
    rw [hc]
    simp [hMism, hHack, hv]
  · intro hvm hk
    cases hkt : lookupA s.typeMap (resolveName s var) with
    | none => rw [hkt] at hk; simp at hk
    | some t0 =>
      simp only [getTupleObj, hAtt]
      simp [hMism, hHack, hvm, getTypeE, hkt]
  · intro h1 hp1
    simp [scalarProbe, hp1]
  · intro hn1 h2 hp2
    simp [scalarProbe, hn1, hp2]
  · intro hn1 hn2 h3 hp3
    simp [scalarProbe, hn1, hn2, hp3]

/-- A reader with the conversion hack on, a native `vector<double>` column
`v` and its precomputed float shadow `v___f`. -/
def convState : NTR := { baseNTR with
  convertHackActive := true,
  typeMap := [("v", "vector<double>")],
  branchVecMap :=
    [("v", { deleterSet := true, isVecDel := true, type := "vector<double>",
             val := Val.payload 1 }),
     ("v___f", { deleterSet := true, isVecDel := true, type := "vector<float>",
                 val := Val.payload 2 })] }

/-- A reader with the conversion hack on, a native scalar `double` column
`sc` and scalar shadows `sc___f` and `sc___i` (no `sc___d`). -/
def scalarConvState : NTR := { baseNTR with
  convertHackActive := true,
  typeMap := [("sc", "double")],
  branchMap :=
    [("sc", { deleterSet := true, isVecDel := false, type := "double",
              val := Val.payload 1 }),
     ("sc___f", createHandle "float"),
     ("sc___i", createHandle "int")] }

/-- C4, witnessed: requesting `v` as `vector<float>` resolves to the shadow
`v___f` in the vector map; requesting scalar `sc` as `int` probes `d`,
then `f`, and returns the `sc___f` hit. -/
theorem C4_conversion_shadow_witness :
    convTypen "vector<float>" "vector<double>" 'q' = 'f' ∧
    getTupleObj convState MapSel.vecM "v" "vector<float>" false 'q' =
      (GetOutcome.ok (Ref.cell MapSel.vecM
          (resolveName convState "v" ++ "___" ++ String.singleton 'f')), convState) ∧
    scalarProbe scalarConvState (resolveName scalarConvState "sc") =
      some (Ref.cell MapSel.scalarM (resolveName scalarConvState "sc" ++ "___f")) ∧
    getTupleObj scalarConvState MapSel.scalarM "sc" "int" false 'q' =
      (GetOutcome.ok (Ref.cell MapSel.scalarM
          (resolveName scalarConvState "sc" ++ "___f")), scalarConvState) := by
  have hv := C4_conversion_shadow convState MapSel.vecM "v" "vector<float>" 'q'
      { deleterSet := true, isVecDel := true, type := "vector<double>", val := Val.payload 1 }
      (by decide) (by decide) (by decide)
  have hsuf : convTypen "vector<float>" "vector<double>" 'q' = 'f' := hv.1 ⟨rfl, rfl⟩
  have hs := C4_conversion_shadow scalarConvState MapSel.scalarM "sc" "int" 'q'
      { deleterSet := true, isVecDel := false, type := "double", val := Val.payload 1 }
      (by decide) (by decide) (by decide)
  have hprobe := hs.2.2.2.2.2.2.2.1 (by decide) (createHandle "float") (by decide)
  have hkey := hs.2.2.2.2.2.1 (by decide) (by decide)
  refine ⟨hsuf, ?_, hprobe, ?_⟩
  · exact hv.2.2.2.2.1 'f' hsuf (by decide)
  · rw [hkey, hprobe]

/-! ## Claim C5 -/

/-- C5: a lookup of a name known to the schema (present in `typeMap_`) but
with no attached storage attaches storage of the branch's declared kind
and type, force-loads only the current row (`nevt_ - 1`) into that storage
— every other cell of both column maps is untouched — and returns the
value when the attached type matches the request; when the external source
has no branch of that name, the call fails with NotFound carrying the
requested type and, when the (unprefixed) name is known under a type, that
stored type as well, leaving the state unchanged. -/
theorem C5_lazy_attach (s : NTR) (sel : MapSel) (var reqT : String) (junk : Char)
    (b : TBranch)
    (hNoAtt : lookupA (s.vtuple sel) (resolveName s var) = none)
    (hKnown : (lookupA s.typeMap (resolveName s var)).isSome = true) :
    (lookupA s.treeBranches (resolveName s var) = some b →
      (sel = MapSel.vecM ↔ b.isVec = true) →
      branchStoredType b = reqT →
      ∃ s2, getTupleObj s sel var reqT false junk =
              (GetOutcome.ok (Ref.cell sel (resolveName s var)), s2) ∧
        lookupA (s2.vtuple sel) (resolveName s var) =
          some { deleterSet := true, isVecDel := b.isVec, type := reqT,
                 val := b.rowAt (s.nevt - 1) } ∧
        (∀ k, k ≠ resolveName s var →
          lookupA s2.branchMap k = lookupA s.branchMap k ∧
          lookupA s2.branchVecMap k = lookupA s.branchVecMap k)) ∧
    (lookupA s.treeBranches (resolveName s var) = none →
      getTupleObj s sel var reqT false junk =
        (GetOutcome.err (finalErr s var reqT), s) ∧
      (∀ t, lookupA s.typeMap var = some t →
        finalErr s var reqT = SATErr.notFoundWithType var (demangle reqT) t) ∧
      (lookupA s.typeMap var = none →
        finalErr s var reqT = SATErr.notFound var (demangle reqT))) := by
  constructor
  · intro hb hkind htype
    refine ⟨branchGetEvent (registerBranchAuto s (resolveName s var) b)
        (resolveName s var) b (s.nevt - 1), ?_⟩
    cases sel with
    | vecM =>
      have hbv : b.isVec = true := hkind.mp rfl
      have hT : "vector<" ++ b.elemType ++ ">" = reqT := by
        rw [← htype]
        simp [branchStoredType, hbv]
      have hcell : lookupA ((branchGetEvent (registerBranchAuto s (resolveName s var) b)
            (resolveName s var) b (s.nevt - 1)).vtuple MapSel.vecM) (resolveName s var) =
          some { deleterSet := true, isVecDel := b.isVec, type := reqT,
                 val := b.rowAt (s.nevt - 1) } := by
        simp [registerBranchAuto, hbv, registerVecBranchT, branchGetEvent, setValA,
              lookupA_insertA_self, createVecHandle, NTR.vtuple, hT]
      refine ⟨?_, hcell, ?_⟩
      · simp only [getTupleObj, hNoAtt, hKnown, hb]
        simp only [hcell]
        simp
      · intro k hk
        have hne1 : ∀ (m : List (String × Handle)) (v : Handle),
            lookupA (insertA m (resolveName s var) v) k = lookupA m k :=
          fun m v => lookupA_insertA_ne m (resolveName s var) k v hk
        constructor <;>
          simp [registerBranchAuto, hbv, registerVecBranchT, branchGetEvent, setValA,
                lookupA_insertA_self, hne1]
    | scalarM =>
      have hbv : b.isVec = false := by
        cases hb2 : b.isVec with
        | false => rfl
        | true => exact absurd (hkind.mpr hb2) (by decide)
      have hT : b.elemType = reqT := by
        rw [← htype]
        simp [branchStoredType, hbv]
      have hcell : lookupA ((branchGetEvent (registerBranchAuto s (resolveName s var) b)
            (resolveName s var) b (s.nevt - 1)).vtuple MapSel.scalarM) (resolveName s var) =
          some { deleterSet := true, isVecDel := b.isVec, type := reqT,
                 val := b.rowAt (s.nevt - 1) } := by
        simp [registerBranchAuto, hbv, registerBranchT, branchGetEvent, setValA,
              lookupA_insertA_self, createHandle, NTR.vtuple, hT]
      refine ⟨?_, hcell, ?_⟩
      · simp only [getTupleObj, hNoAtt, hKnown, hb]
        simp only [hcell]
        simp
      · intro k hk
        have hne1 : ∀ (m : List (String × Handle)) (v : Handle),
            lookupA (insertA m (resolveName s var) v) k = lookupA m k :=
          fun m v => lookupA_insertA_ne m (resolveName s var) k v hk
        constructor <;>
          simp [registerBranchAuto, hbv, registerBranchT, branchGetEvent, setValA,
                lookupA_insertA_self, hne1]
  · intro hb
    have key : getTupleObj s sel var reqT false junk =
        (GetOutcome.err (finalErr s var reqT), s) := by
      simp only [getTupleObj, hNoAtt, hKnown, hb]
      simp
    refine ⟨key, ?_, ?_⟩
    · intro t ht
      simp [finalErr, ht]
    · intro ht
      simp [finalErr, ht]

/-- The vector branch `sv:vector<int>` of the lazy-attachment witness. -/
def lazyB : TBranch := { isVec := true, elemType := "int",
                         rows := [Val.payload 10, Val.payload 20] }

/-- A reader on row 2 whose schema knows `sv:vector<int>` with no attached
storage, backed by a tree branch delivering rows 10 and 20. -/
def lazyState : NTR := { baseNTR with
  nevt := 2,
  typeMap := [("sv", "vector<int>")],
  treeBranches := [("sv", lazyB)] }

/-- A reader whose schema knows `gv:float` but whose tree has no branch of
that name at all. -/
def lazyMissState : NTR := { baseNTR with
  typeMap := [("gv", "float")] }

/-- C5, witnessed: the lazy lookup of `sv` as `vector<int>` attaches the
branch and returns the current row's value (row index 1, payload 20); the
lookup of `gv` as `int` fails with the NotFound diagnostic naming the
stored type `float`. -/
theorem C5_lazy_attach_witness :
    (∃ s2, getTupleObj lazyState MapSel.vecM "sv" "vector<int>" false 'q' =
        (GetOutcome.ok (Ref.cell MapSel.vecM (resolveName lazyState "sv")), s2) ∧
      lookupA (s2.vtuple MapSel.vecM) (resolveName lazyState "sv") =
        some { deleterSet := true, isVecDel := true, type := "vector<int>",
               val := Val.payload 20 }) ∧
    getTupleObj lazyMissState MapSel.scalarM "gv" "int" false 'q' =
      (GetOutcome.err (SATErr.notFoundWithType "gv" "int" "float"), lazyMissState) := by
  obtain ⟨s2, hok, hcell, -⟩ :=
    (C5_lazy_attach lazyState MapSel.vecM "sv" "vector<int>" 'q' lazyB
        (by decide) (by decide)).1 (by decide) (by decide) (by decide)
  have hmiss := (C5_lazy_attach lazyMissState MapSel.scalarM "gv" "int" 'q' lazyB
      (by decide) (by decide)).2 (by decide)
  refine ⟨⟨s2, hok, hcell⟩, ?_⟩
  rw [hmiss.1, hmiss.2.1 "float" (by decide)]
  rfl

/-! ## Claim C10 -/

/-- C10: starting from any state satisfying the invariant, each operation
that inserts into a column map — `registerBranch<T>`, `registerVecBranch<T>`
(branch registration), `registerDerivedVar` (derived scalar registration)
and `registerDerivedVec` (derived vector registration) — preserves it:
every key of either column map keeps a corresponding entry in the
name-to-type-name map. -/
theorem C10_column_maps_covered (s : NTR) (name t : String) (v : Val)
    (hInv : typeMapCovers s) :
    typeMapCovers (registerBranchT s name t) ∧
    typeMapCovers (registerVecBranchT s name t) ∧
    typeMapCovers (registerDerivedVar s name t v).state ∧
    typeMapCovers (registerDerivedVec s name t v).state := by
  obtain ⟨h1, h2⟩ := hInv
  refine ⟨⟨?_, ?_⟩, ⟨?_, ?_⟩, ?_, ?_⟩
  · simp only [registerBranchT]
    exact covers_insert_covered (covers_typeMap_extend name (demangle t) h1)
      (lookupA_insertA_isSome _ name name (demangle t) (Or.inr rfl))
  · simp only [registerBranchT]
    exact covers_typeMap_extend name (demangle t) h2
  · simp only [registerVecBranchT]
    exact covers_typeMap_extend name (demangle ("vector<" ++ t ++ ">")) h1
  · simp only [registerVecBranchT]
    exact covers_insert_covered
      (covers_typeMap_extend name (demangle ("vector<" ++ t ++ ">")) h2)
      (lookupA_insertA_isSome _ name name (demangle ("vector<" ++ t ++ ">")) (Or.inr rfl))
  · cases hb : lookupA s.branchMap name with
    | some h0 =>
      simp only [registerDerivedVar, hb]
      exact ⟨covers_insert_covered h1 (h1 _ (lookupA_mem hb)), h2⟩
    | none =>
      cases ht : lookupA s.typeMap name with
      | some t0 =>
        simp only [registerDerivedVar, hb, ht]
        exact ⟨h1, h2⟩
      | none =>
        simp only [registerDerivedVar, hb, ht]
        constructor
        · exact covers_insert_covered
            (covers_insert_covered (covers_typeMap_extend name (demangle t) h1)
              (lookupA_insertA_isSome _ name name (demangle t) (Or.inr rfl)))
            (lookupA_insertA_isSome _ name name (demangle t) (Or.inr rfl))
        · exact covers_typeMap_extend name (demangle t) h2
  · cases hb : lookupA s.branchVecMap name with
    | some h0 =>
      simp only [registerDerivedVec, hb]
      exact ⟨h1, covers_insert_covered h2 (h2 _ (lookupA_mem hb))⟩
    | none =>
      cases ht : lookupA s.typeMap name with
      | some t0 =>
        simp only [registerDerivedVec, hb, ht]
        exact ⟨h1, h2⟩
      | none =>
        simp only [registerDerivedVec, hb, ht]
        constructor
        · exact covers_typeMap_extend name (demangle t) h1
        · exact covers_insert_covered
            (covers_insert_covered (covers_typeMap_extend name (demangle t) h2)
              (lookupA_insertA_isSome _ name name (demangle t) (Or.inr rfl)))
            (lookupA_insertA_isSome _ name name (demangle t) (Or.inr rfl))

/-- C10, witnessed on a reader with one attached schema column. -/
theorem C10_column_maps_covered_witness :
    typeMapCovers (registerBranchT attachedState "nb" "float") ∧
    typeMapCovers (registerDerivedVar attachedState "nb" "float" (Val.payload 4)).state := by
  have hInv : typeMapCovers attachedState := by
    unfold typeMapCovers
    exact ⟨by decide, by decide⟩
  have h := C10_column_maps_covered attachedState "nb" "float" (Val.payload 4) hInv
  exact ⟨h.1, h.2.2.1⟩
